import Mathlib

/-!
# Verification of the emma-task incident extraction pipeline

Shallow embedding of `emma-backend/app` (config loader, rule extractor,
assessment matcher, datetime inference engine, orchestrator) together with
theorems settling the frozen claims about that code.

Modelling conventions:

* Python strings are Lean `String`s; character indices coincide.
* An aware `datetime` in `Europe/London` is identified with its civil
  (wall-clock) fields (`DT`).  Differences of aware datetimes and
  `timedelta` arithmetic are computed on civil fields; this agrees with
  Python except across a DST change inside the subtracted span, which no
  claim exercises.  `isoformat` renders the civil fields (the UTC-offset
  suffix carries no extra information under this identification).
* The fixed regular-expression literals appearing in the source
  (`DATE_PATTERNS`, `TIME_PATTERNS`, `RELATIVE_PATTERNS`, the
  introduction pattern, the keyword alternations, the explicit-date
  regexes) are transcribed into executable scanners with Python
  `re.search` semantics: leftmost position wins, greedy bounded
  quantifiers with backtracking, `\b` word boundaries, `IGNORECASE`
  where the source passes that flag.
* Regular expressions that come from *configuration data* (incident-type
  patterns, assessment patterns, policy triggers) are modelled by an
  opaque `RegexEnv`: `valid p` says `re.compile(p)` succeeds, and
  `search p s` is the first match span.  Calling `re` functions with an
  invalid pattern raises `re.error`, modelled as `PyErr.reError`.
* Fallible Python code is embedded in `Except`; an uncaught Python
  exception is an `Except.error`.
-/

/-- Python exceptions that the modelled code can raise or catch. -/
inductive PyErr where
  | reError
  | typeError
deriving DecidableEq, Repr

/-- ASCII word character: the regex class `\w` restricted to ASCII, which is
all the transcripts and keywords in scope use. -/
def isWordChar (c : Char) : Bool := c.isAlphanum || c == '_'

/-- Check that `\b` holds just after the end of a candidate match ending in a word
character: the remaining text is empty or starts with a non-word character. -/
def endB : List Char → Bool
  | [] => true
  | c :: _ => !isWordChar c

/-- Lowercasing as `str.lower()` (ASCII-faithful). -/
def lowerStr (s : String) : String := ⟨s.data.map Char.toLower⟩

/-- The slice `text[pos : pos+len]` as a string slice on characters. -/
def sliceChars (s : List Char) (pos len : Nat) : String := ⟨(s.drop pos).take len⟩

/-- Embeds `str.strip()`: remove leading and trailing whitespace. -/
def pyStrip (s : String) : String :=
  ⟨((s.data.dropWhile Char.isWhitespace).reverse.dropWhile Char.isWhitespace).reverse⟩

/-- First index at which `kw` occurs as a contiguous sublist of `s`
(`str.find`, with `none` standing for Python's `-1`). -/
def firstOccurrence (kw : List Char) : List Char → Option Nat :=
  go 0
where
  go (i : Nat) : List Char → Option Nat
    | [] => if kw.isPrefixOf [] then some i else none
    | c :: cs => if kw.isPrefixOf (c :: cs) then some i else go (i + 1) cs

/-- Numeric value of a digit string (the `int(...)` of a matched digit group). -/
def digitsVal (ds : List Char) : Nat := ds.foldl (fun a c => a * 10 + (c.toNat - 48)) 0

/-! ## Civil datetime (Europe/London wall clock) -/

/-- Civil datetime; stands for an aware `datetime` in `Europe/London`. -/
structure DT where
  year : Nat
  month : Nat
  day : Nat
  hour : Nat
  minute : Nat
  second : Nat
deriving DecidableEq, Repr

def isLeap (y : Nat) : Bool := (y % 4 == 0 && y % 100 != 0) || y % 400 == 0

def daysInMonth (y m : Nat) : Nat :=
  if m = 2 then (if isLeap y then 29 else 28)
  else if m = 4 ∨ m = 6 ∨ m = 9 ∨ m = 11 then 30 else 31

/-- The validation `datetime(year, month, day)` performs (raising `ValueError`
outside these bounds). -/
def civilValid (y m d : Nat) : Bool :=
  1 ≤ y && y ≤ 9999 && 1 ≤ m && m ≤ 12 && 1 ≤ d && d ≤ daysInMonth y m

/-- Days from 1970-01-01 of a proleptic-Gregorian civil date
(days-from-civil; all intermediate values are nonnegative for year ≥ 1). -/
def civilToDays (y m d : Nat) : Int :=
  let yi : Int := (y : Int) - (if m ≤ 2 then 1 else 0)
  let era : Int := (if 0 ≤ yi then yi else yi - 399) / 400
  let yoe : Int := yi - era * 400
  let mp : Int := ((m : Int) + 9) % 12
  let doy : Int := (153 * mp + 2) / 5 + (d : Int) - 1
  let doe : Int := yoe * 365 + yoe / 4 - yoe / 100 + doy
  era * 146097 + doe - 719468

/-- Civil date of a day count from 1970-01-01 (civil-from-days). -/
def daysToCivil (z0 : Int) : Nat × Nat × Nat :=
  let z : Int := z0 + 719468
  let era : Int := (if 0 ≤ z then z else z - 146096) / 146097
  let doe : Int := z - era * 146097
  let yoe : Int := (doe - doe / 1460 + doe / 36524 - doe / 146096) / 365
  let y : Int := yoe + era * 400
  let doy : Int := doe - (365 * yoe + yoe / 4 - yoe / 100)
  let mp : Int := (5 * doy + 2) / 153
  let d : Int := doy - (153 * mp + 2) / 5 + 1
  let m : Int := mp + (if mp < 10 then 3 else -9)
  ((y + (if m ≤ 2 then 1 else 0)).toNat, m.toNat, d.toNat)

/-- Seconds from the epoch of a civil datetime; `total_seconds` of a
difference of two `DT`s is the difference of their `dtToSec`. -/
def dtToSec (dt : DT) : Int :=
  civilToDays dt.year dt.month dt.day * 86400
    + dt.hour * 3600 + dt.minute * 60 + dt.second

def dtFromSec (t : Int) : DT :=
  let days := t.ediv 86400
  let rem := (t.emod 86400).toNat
  let c := daysToCivil days
  { year := c.1, month := c.2.1, day := c.2.2,
    hour := rem / 3600, minute := rem % 3600 / 60, second := rem % 60 }

/-- Embeds `dt - timedelta(minutes=k)` (Python datetime arithmetic is civil). -/
def dtSubMinutes (dt : DT) (k : Nat) : DT := dtFromSec (dtToSec dt - k * 60)

/-- Embeds `dt - timedelta(days=k)`. -/
def dtSubDays (dt : DT) (k : Nat) : DT := dtFromSec (dtToSec dt - k * 86400)

def pad2 (n : Nat) : String := if n < 10 then "0" ++ toString n else toString n

def pad4 (n : Nat) : String :=
  if n < 10 then "000" ++ toString n
  else if n < 100 then "00" ++ toString n
  else if n < 1000 then "0" ++ toString n
  else toString n

/-- Day of the week (Sunday = 0) of a civil date; 1970-01-01 was a
Thursday. -/
def dowSun0 (y m d : Nat) : Nat := ((civilToDays y m d + 4).emod 7).toNat

/-- Day of the last Sunday of a 31-day month (March or October). -/
def lastSundayDay (y m : Nat) : Nat := 31 - dowSun0 y m 31

/-- UTC offset in minutes of a Europe/London civil datetime, as `ZoneInfo`
computes it: BST (+60) from 02:00 local on the last Sunday of March up to
02:00 local on the last Sunday of October, otherwise GMT (0).  Wall times
inside the skipped or repeated transition hour are assigned by this total
rule; no claim exercises a transition instant. -/
def ukOffsetMinutes (dt : DT) : Int :=
  let marS := lastSundayDay dt.year 3
  let octS := lastSundayDay dt.year 10
  let afterStart :=
    3 < dt.month || (dt.month == 3 && (marS < dt.day || (dt.day == marS && 2 ≤ dt.hour)))
  let beforeEnd :=
    dt.month < 10 || (dt.month == 10 && (dt.day < octS || (dt.day == octS && dt.hour < 2)))
  if afterStart && beforeEnd then 60 else 0

/-- Render a fixed UTC offset the way `datetime.isoformat` does
(`+HH:MM` / `-HH:MM`). -/
def offsetSuffix (o : Int) : String :=
  (if o < 0 then "-" else "+") ++ pad2 (o.natAbs / 60) ++ ":" ++ pad2 (o.natAbs % 60)

/-- Embeds `datetime.isoformat()` of an aware Europe/London datetime: the
civil fields followed by the UTC offset in effect at that wall time.  Every
datetime this pipeline stamps or infers is constructed with
`tzinfo=UK_TZ`, so its rendering always carries the offset suffix. -/
def isoformat (dt : DT) : String :=
  pad4 dt.year ++ "-" ++ pad2 dt.month ++ "-" ++ pad2 dt.day ++ "T" ++
    pad2 dt.hour ++ ":" ++ pad2 dt.minute ++ ":" ++ pad2 dt.second ++
    offsetSuffix (ukOffsetMinutes dt)

/-- A datetime as `datetime.fromisoformat` returns it: civil fields plus an
optional fixed UTC offset in minutes.  `none` is a naive datetime — the
string carried no offset suffix. -/
structure PyDT where
  civil : DT
  offsetMinutes : Option Int
deriving DecidableEq, Repr

/-- Parse the tail after the seconds field: nothing (a naive datetime), `Z`
(rewritten to `+00:00` by `_parse_iso` before parsing), or `±HH:MM` with
minutes below 60 and the whole offset strictly inside a day, as
`fromisoformat` requires. -/
def parseOffset : List Char → Option (Option Int)
  | [] => some none
  | ['Z'] => some (some 0)
  | c :: rest =>
    if c == '+' || c == '-' then
      match rest with
      | [a, b, ':', x, y] =>
        if a.isDigit && b.isDigit && x.isDigit && y.isDigit &&
            digitsVal [x, y] < 60 && digitsVal [a, b] * 60 + digitsVal [x, y] < 1440 then
          let v : Int := (digitsVal [a, b] * 60 + digitsVal [x, y] : Nat)
          some (some (if c == '-' then -v else v))
        else none
      | _ => none
    else none

/-- Embeds `datetime.fromisoformat` on the canonical datetime strings this
pipeline produces (`YYYY-MM-DD[THH:MM:SS[±HH:MM]]`); anything else is a
parse failure.  An offset-less string parses to a *naive* datetime. -/
def parseIsoChars : List Char → Option PyDT
  | y1 :: y2 :: y3 :: y4 :: '-' :: m1 :: m2 :: '-' :: d1 :: d2 :: rest =>
    if [y1, y2, y3, y4, m1, m2, d1, d2].all Char.isDigit then
      let y := digitsVal [y1, y2, y3, y4]
      let mo := digitsVal [m1, m2]
      let d := digitsVal [d1, d2]
      match rest with
      | [] => if civilValid y mo d then some ⟨⟨y, mo, d, 0, 0, 0⟩, none⟩ else none
      | 'T' :: h1 :: h2 :: ':' :: mi1 :: mi2 :: ':' :: s1 :: s2 :: tail =>
        if [h1, h2, mi1, mi2, s1, s2].all Char.isDigit then
          match parseOffset tail with
          | none => none
          | some off =>
            let h := digitsVal [h1, h2]
            let mi := digitsVal [mi1, mi2]
            let sec := digitsVal [s1, s2]
            if civilValid y mo d && h < 24 && mi < 60 && sec < 60 then
              some ⟨⟨y, mo, d, h, mi, sec⟩, off⟩
            else none
        else none
      | _ => none
    else none
  | _ => none

/-! ## Scanner primitives (Python `re.search` semantics) -/

/-- The `re.search` driver: try the matcher at every position, leftmost wins.
`prevW` records whether the previous character is a word character, for the
`\b` checks performed by the matcher at the match start. -/
def searchFrom (f : Bool → List Char → Option α) : Bool → Nat → List Char → Option (Nat × α)
  | prevW, i, [] => (f prevW []).map (fun a => (i, a))
  | prevW, i, c :: cs =>
    match f prevW (c :: cs) with
    | some a => some (i, a)
    | none => searchFrom f (isWordChar c) (i + 1) cs

def reSearch (f : Bool → List Char → Option α) (s : List Char) : Option (Nat × α) :=
  searchFrom f false 0 s

def digitPrefixLen (s : List Char) : Nat := (s.takeWhile Char.isDigit).length

/-- Candidate lengths for the greedy bounded quantifier `\d{lo,hi}`:
longest first, backtracking to shorter candidates. -/
def digitCands (lo hi : Nat) (s : List Char) : List Nat :=
  ((List.range (hi + 1)).reverse).filter (fun k => lo ≤ k && k ≤ digitPrefixLen s)

/-- Match `\d{lo,hi}` greedily with backtracking; the continuation receives
the number of digits taken, their numeric value, and the rest. -/
def tryDigits (lo hi : Nat) (s : List Char) (cont : Nat → Nat → List Char → Option α) : Option α :=
  (digitCands lo hi s).findSome? (fun k => cont k (digitsVal (s.take k)) (s.drop k))

def wsLen (s : List Char) : Nat := (s.takeWhile Char.isWhitespace).length

/-- Match `\s+` when followed by a non-whitespace token, so the maximal run is the
only viable choice. -/
def skipWs1 (s : List Char) : Option (Nat × List Char) :=
  let n := wsLen s
  if n = 0 then none else some (n, s.drop n)

/-- Match `\s*` when followed by a non-whitespace token. -/
def skipWs0 (s : List Char) : Nat × List Char :=
  let n := wsLen s
  (n, s.drop n)

def expectChar (c : Char) : List Char → Option (List Char)
  | x :: xs => if x == c then some xs else none
  | [] => none

/-- Case-insensitive literal match (`lit` is given lowercased). -/
def litCI : List Char → List Char → Option (List Char)
  | [], s => some s
  | _ :: _, [] => none
  | l :: ls, c :: cs => if c.toLower == l then litCI ls cs else none

def isUpperAZ (c : Char) : Bool := 'A' ≤ c && c ≤ 'Z'
def isLowerAZ (c : Char) : Bool := 'a' ≤ c && c ≤ 'z'
def isAsciiAlpha (c : Char) : Bool := isUpperAZ c || isLowerAZ c

/-! ## Datetime inference engine (`app/util/datetime_extract.py`) -/

/-- The pattern `r"\b(\d{1,2})<sep>(\d{1,2})<sep>(\d{2,4})\b"` matched at one position;
returns `(len, (day, monthRaw, yearDigits, yearRaw))`. -/
def matchSepDateAt (sep : Char) (prevW : Bool) (s : List Char) :
    Option (Nat × (Nat × Nat × Nat × Nat)) :=
  if prevW then none else
  tryDigits 1 2 s (fun k1 d s1 => do
    let s2 ← expectChar sep s1
    tryDigits 1 2 s2 (fun k2 mo s3 => do
      let s4 ← expectChar sep s3
      tryDigits 2 4 s4 (fun k3 y s5 =>
        if endB s5 then some (k1 + 1 + k2 + 1 + k3, (d, mo, k3, y)) else none)))

/-- The month-name alternatives of the third date pattern, with the month
number `datetime.strptime(tok[:3].title(), "%b").month` yields for each. -/
def monthAbbrevTokens : List (String × Nat) :=
  [("jan", 1), ("feb", 2), ("mar", 3), ("apr", 4), ("may", 5), ("jun", 6),
   ("jul", 7), ("aug", 8), ("sep", 9), ("sept", 9), ("oct", 10), ("nov", 11), ("dec", 12)]

def monthFullTokens : List (String × Nat) :=
  [("january", 1), ("february", 2), ("march", 3), ("april", 4), ("may", 5),
   ("june", 6), ("july", 7), ("august", 8), ("september", 9), ("october", 10),
   ("november", 11), ("december", 12)]

/-- The pattern `r"\b(\d{1,2})\s+(<months>)[a-z]*\s+(\d{2,4})\b"` (with the trailing
`[a-z]*` only for the abbreviated-month pattern) matched at one position,
case-insensitively; under `IGNORECASE`, `[a-z]` also matches `A-Z`. -/
def matchNameDateAt (toks : List (String × Nat)) (trailing : Bool)
    (prevW : Bool) (s : List Char) : Option (Nat × (Nat × Nat × Nat × Nat)) :=
  if prevW then none else
  tryDigits 1 2 s (fun k1 d s1 => do
    let (w1, s2) ← skipWs1 s1
    toks.findSome? (fun tm => do
      let s3 ← litCI tm.1.data s2
      let extra := if trailing then (s3.takeWhile isAsciiAlpha).length else 0
      let s3' := s3.drop extra
      let (w2, s4) ← skipWs1 s3'
      tryDigits 2 4 s4 (fun k3 y s5 =>
        if endB s5 then
          some (k1 + w1 + tm.1.length + extra + w2 + k3, (d, tm.2, k3, y))
        else none)))

/-- The list `DATE_PATTERNS`, in source order. -/
def dateScanners : List (Bool → List Char → Option (Nat × (Nat × Nat × Nat × Nat))) :=
  [matchSepDateAt '/', matchSepDateAt '-',
   matchNameDateAt monthAbbrevTokens true, matchNameDateAt monthFullTokens false]

/-- Embeds `int(y) + 2000 if len(y) == 2 else int(y)`. -/
def yearAdjust (ydigits yraw : Nat) : Nat := if ydigits = 2 then yraw + 2000 else yraw

/-- The explicit-date loop: per pattern, `re.search`; on a match set
`date_quote` (before validation), then `if day and month and year` and
`datetime(...)` validation; a validation failure moves on to the next
pattern keeping the quote. -/
def datePassGo (text : List Char) :
    List (Bool → List Char → Option (Nat × (Nat × Nat × Nat × Nat))) →
      Option String → Option String × Option DT
  | [], q => (q, none)
  | sc :: rest, q =>
    match reSearch sc text with
    | none => datePassGo text rest q
    | some (pos, len, d, mo, yd, yr) =>
      let q' := some (sliceChars text pos len)
      let y := yearAdjust yd yr
      if (d != 0) && (mo != 0) && (y != 0) && civilValid y mo d then
        (q', some ⟨y, mo, d, 0, 0, 0⟩)
      else datePassGo text rest q'

def datePass (text : List Char) : Option String × Option DT :=
  datePassGo text dateScanners none

/-- Match `(am|pm)\b` on lowercased text; returns `(2, isPm, rest)`. -/
def amPmTail : List Char → Option (Nat × Bool × List Char)
  | 'a' :: 'm' :: rest => if endB rest then some (2, false, rest) else none
  | 'p' :: 'm' :: rest => if endB rest then some (2, true, rest) else none
  | _ => none

/-- Embeds `if pm and h != 12: h += 12` / `if am and h == 12: h = 0`. -/
def adjAmPm (h : Nat) (isPm : Bool) : Nat :=
  if isPm then (if h ≠ 12 then h + 12 else h) else (if h = 12 then 0 else h)

/-- The pattern `r"\b(\d{1,2}):(\d{2})\s*(am|pm)\b"`. -/
def matchT1 (prevW : Bool) (s : List Char) : Option (Nat × (Nat × Nat)) :=
  if prevW then none else
  tryDigits 1 2 s (fun k1 h s1 => do
    let s2 ← expectChar ':' s1
    tryDigits 2 2 s2 (fun k2 mm s3 => do
      let (w, s4) := skipWs0 s3
      let (k3, isPm, _) ← amPmTail s4
      some (k1 + 1 + k2 + w + k3, (adjAmPm h isPm % 24, mm % 60))))

/-- The pattern `r"\b(\d{1,2})\s*(am|pm)\b"`. -/
def matchT2 (prevW : Bool) (s : List Char) : Option (Nat × (Nat × Nat)) :=
  if prevW then none else
  tryDigits 1 2 s (fun k1 h s1 => do
    let (w, s2) := skipWs0 s1
    let (k2, isPm, _) ← amPmTail s2
    some (k1 + w + k2, (adjAmPm h isPm % 24, 0)))

/-- The pattern `r"\b(\d{1,2}):(\d{2})\b"`. -/
def matchT3 (prevW : Bool) (s : List Char) : Option (Nat × (Nat × Nat)) :=
  if prevW then none else
  tryDigits 1 2 s (fun k1 h s1 => do
    let s2 ← expectChar ':' s1
    tryDigits 2 2 s2 (fun k2 mm s3 =>
      if endB s3 then some (k1 + 1 + k2, (h % 24, mm % 60)) else none))

/-- The patterns `r"\bnoon\b"` / `r"\bmidnight\b"`, with their fixed clock values. -/
def matchLitWord (w : String) (out : Nat × Nat) (prevW : Bool) (s : List Char) :
    Option (Nat × (Nat × Nat)) :=
  if prevW then none else do
    let rest ← litCI w.data s
    if endB rest then some (w.length, out) else none

/-- The list `TIME_PATTERNS`, in source order, each paired with the branch logic the
loop body applies to its groups. -/
def timeScanners : List (Bool → List Char → Option (Nat × (Nat × Nat))) :=
  [matchT1, matchT2, matchT3, matchLitWord "noon" (12, 0), matchLitWord "midnight" (0, 0)]

/-- The explicit-time loop: the first pattern (in order) with a match anywhere
sets both `time_quote` and `time_val` and breaks. -/
def timePass (low : List Char) : Option String × Option (Nat × Nat) :=
  match timeScanners.findSome? (fun sc => reSearch sc low) with
  | none => (none, none)
  | some (pos, len, hm) => (some (sliceChars low pos len), some hm)

/-- The pattern `r"\b(\d{1,2})\s+<unit>s?\s+ago\b"`; returns `(len, qty)`. -/
def matchAgo (unitWord : String) (prevW : Bool) (s : List Char) : Option (Nat × Nat) :=
  if prevW then none else
  tryDigits 1 2 s (fun k1 q s1 => do
    let (w1, s2) ← skipWs1 s1
    let s3 ← litCI unitWord.data s2
    let tryFrom : Nat → List Char → Option (Nat × Nat) := fun extra s4 => do
      let (w2, s5) ← skipWs1 s4
      let s6 ← litCI "ago".data s5
      if endB s6 then some (k1 + w1 + unitWord.length + extra + w2 + 3, q) else none
    match s3 with
    | 's' :: s3' => tryFrom 1 s3' <|> tryFrom 0 s3
    | _ => tryFrom 0 s3)

/-- A bare `\b<word>\b` (for `yesterday`); returns the match length. -/
def matchWordQ (w : String) (prevW : Bool) (s : List Char) : Option Nat :=
  if prevW then none else do
    let rest ← litCI w.data s
    if endB rest then some w.length else none

/-- The table `DAYPART_DEFAULTS`. -/
def dayparts : List (String × Nat × Nat) :=
  [("morning", 9, 0), ("afternoon", 15, 0), ("evening", 19, 0), ("night", 22, 0)]

/-- The pattern `r"\bthis\s+(morning|afternoon|evening|night)\b"`; returns `(len, part)`. -/
def matchThisDaypart (prevW : Bool) (s : List Char) : Option (Nat × String) :=
  if prevW then none else do
    let s1 ← litCI "this".data s
    let (w, s2) ← skipWs1 s1
    dayparts.findSome? (fun p => do
      let rest ← litCI p.1.data s2
      if endB rest then some (4 + w + p.1.length, p.1) else none)

/-- The pattern `r"\blast\s+night\b"`; returns the match length. -/
def matchLastNight (prevW : Bool) (s : List Char) : Option Nat :=
  if prevW then none else do
    let s1 ← litCI "last".data s
    let (w, s2) ← skipWs1 s1
    let rest ← litCI "night".data s2
    if endB rest then some (4 + w + 5) else none

/-- The `DatetimeInferenceResult` dict of the source. -/
structure DtInfo where
  value : Option String
  confidence : String
  method : String
  evidence_quote : Option String
deriving DecidableEq, Repr

/-- The relative pass: `RELATIVE_PATTERNS` in fixed priority order, first
match wins, confidence always `"low"`. -/
def relativePass (low : List Char) (now : DT) : DtInfo :=
  match reSearch (matchAgo "minute") low with
  | some (pos, len, q) =>
    let dt := { dtSubMinutes now q with second := 0 }
    ⟨some (isoformat dt), "low", "relative", some (sliceChars low pos len)⟩
  | none =>
  match reSearch (matchAgo "hour") low with
  | some (pos, len, q) =>
    let dt := { dtSubMinutes now (q * 60) with second := 0 }
    ⟨some (isoformat dt), "low", "relative", some (sliceChars low pos len)⟩
  | none =>
  match reSearch (matchWordQ "yesterday") low with
  | some (pos, len) =>
    let dt := { dtSubDays now 1 with hour := 12, minute := 0, second := 0 }
    ⟨some (isoformat dt), "low", "relative", some (sliceChars low pos len)⟩
  | none =>
  match reSearch matchThisDaypart low with
  | some (pos, len, part) =>
    let hm := ((dayparts.find? (fun p => p.1 == part)).map Prod.snd).getD (12, 0)
    let dt := { now with hour := hm.1, minute := hm.2, second := 0 }
    ⟨some (isoformat dt), "low", "relative", some (sliceChars low pos len)⟩
  | none =>
  match reSearch matchLastNight low with
  | some (pos, len) =>
    let dt := { dtSubDays now 1 with hour := 22, minute := 0, second := 0 }
    ⟨some (isoformat dt), "low", "relative", some (sliceChars low pos len)⟩
  | none => ⟨none, "none", "none", none⟩

/-- Embeds `extract_incident_datetime(text, now)`. -/
def extract_incident_datetime (text : String) (now : DT) : DtInfo :=
  let low := lowerStr text
  let dp := datePass text.data
  let tp := timePass low.data
  if dp.2.isSome || tp.2.isSome then
    let base := dp.2.getD now
    let hm := tp.2.getD (12, 0)
    let dt := { base with hour := hm.1, minute := hm.2, second := 0 }
    ⟨some (isoformat dt),
     if dp.2.isSome && tp.2.isSome then "high" else "medium",
     "explicit",
     tp.1 <|> dp.1⟩
  else relativePass low.data now

/-! ## Config store (`app/config/incident_config.py`) -/

/-- Failures the loaders can raise (`RuntimeError` for the two explicit
raises, `AttributeError`/`FileNotFoundError` for the implicit ones). -/
inductive ConfigErr where
  | notFound
  | invalidStructure
  | attributeError
deriving DecidableEq, Repr

/-- YAML values as `yaml.safe_load` yields them. -/
inductive Yaml where
  | null
  | bool (b : Bool)
  | int (n : Int)
  | str (s : String)
  | list (xs : List Yaml)
  | map (kvs : List (String × Yaml))

/-- Python truthiness of a YAML value. -/
def Yaml.truthy : Yaml → Bool
  | .null => false
  | .bool b => b
  | .int n => n != 0
  | .str s => s != ""
  | .list xs => !xs.isEmpty
  | .map kvs => !kvs.isEmpty

def Yaml.isMap : Yaml → Bool
  | .map _ => true
  | _ => false

def Yaml.isList : Yaml → Bool
  | .list _ => true
  | _ => false

/-- Embeds `a or b`. -/
def yOr (a b : Yaml) : Yaml := if a.truthy then a else b

/-- Embeds `v.get(k)`: `None` when the key is absent; `AttributeError` when `v` is
not a mapping. -/
def yGet (v : Yaml) (k : String) : Except ConfigErr Yaml :=
  match v with
  | .map kvs => .ok (((kvs.find? (fun kv => kv.1 == k)).map Prod.snd).getD .null)
  | _ => .error .attributeError

/-- Embeds `loc.lower()`: `AttributeError` on a non-string entry. -/
def yLower : Yaml → Except ConfigErr String
  | .str s => .ok (lowerStr s)
  | _ => .error .attributeError

/-- Embeds `load_incident_config_strict()`, over the backing resource
(`none` = file missing, `some raw` = the `yaml.safe_load` result). -/
def load_incident_config_strict (resource : Option Yaml) :
    Except ConfigErr (List (String × Yaml) × List String) :=
  match resource with
  | none => .error .notFound
  | some raw => do
    let data := yOr raw (.map [])
    let pats0 ← yGet data "patterns"
    let locs0 ← yGet data "locations"
    match yOr pats0 (.map []), yOr locs0 (.list []) with
    | .map pkvs, .list lxs => do
      let lowered ← lxs.mapM yLower
      return (pkvs, lowered)
    | _, _ => .error .invalidStructure

/-- Embeds `load_notifications()`: no existence guard (`open` raises when the file is
missing), `data.get("notifications") or {}`. -/
def load_notifications_cfg (resource : Option Yaml) : Except ConfigErr Yaml :=
  match resource with
  | none => .error .notFound
  | some raw => do
    let data := yOr raw (.map [])
    let n ← yGet data "notifications"
    return yOr n (.map [])

/-- Embeds `load_assessment_rules()`: `data.get("assessments") or []`, then a
non-list is replaced by `[]`. -/
def load_assessment_rules_cfg (resource : Option Yaml) : Except ConfigErr (List Yaml) :=
  match resource with
  | none => .error .notFound
  | some raw => do
    let data := yOr raw (.map [])
    let a ← yGet data "assessments"
    return (match yOr a (.list []) with
            | .list xs => xs
            | _ => [])

/-! ## Regex environment for configuration-supplied patterns -/

/-- Opaque model of the `re` module over configuration-supplied pattern
strings: `valid p` iff `re.compile(p)` succeeds; `search p s` is the span of
the first (leftmost) case-insensitive match of `p` in `s`, if any. -/
structure RegexEnv where
  valid : String → Bool
  search : String → String → Option (Nat × Nat)

/-- A concrete `RegexEnv`: the fragment of `re` whose patterns are literal
strings; a pattern containing `(` is an unbalanced group and fails to
compile, exactly as in `re`. -/
def litEnv : RegexEnv where
  valid p := !(p.data.contains '(')
  search p s :=
    (firstOccurrence (lowerStr p).data (lowerStr s).data).map (fun i => (i, i + p.length))

/-! ## Assessment matcher (`app/rules/assessments.py`) -/

/-- A normalized assessment rule as `_load_assessment_rules` produces it. -/
structure ARule where
  name : String
  incident_types : Option (List String)
  patterns : List String
deriving DecidableEq, Repr

/-- Embeds `incident_type in allowed_types` (a `None` incident type is never a
member of a list of strings). -/
def tyMem (ty : Option String) (l : List String) : Bool :=
  match ty with
  | some t => l.contains t
  | none => false

/-- Negation of `if allowed_types and incident_type not in allowed_types:
continue`: the rule applies unless it carries a truthy (non-empty)
incident-type list that excludes `ty`. -/
def ruleApplies (r : ARule) (ty : Option String) : Bool :=
  match r.incident_types with
  | none => true
  | some l => l.isEmpty || tyMem ty l

/-- The inner pattern loop: test patterns in order; `re.error` on a bad
pattern skips that pattern; the first match returns its span. -/
def firstPatMatch (env : RegexEnv) (pats : List String) (low : String) : Option (Nat × Nat) :=
  pats.findSome? (fun p => if env.valid p then env.search p low else none)

def whichGo (env : RegexEnv) (text low : String) (ty : Option String) :
    List ARule → Option String × Option String
  | [] => (none, none)
  | r :: rest =>
    if ruleApplies r ty then
      match firstPatMatch env r.patterns low with
      | some (s, e) => (some r.name, some (sliceChars text.data s (e - s)))
      | none => whichGo env text low ty rest
    else whichGo env text low ty rest

/-- Embeds `which_risk_assessment(text, incident_type)` over the loaded rules. -/
def which_risk_assessment (env : RegexEnv) (rules : List ARule) (text : String)
    (incident_type : Option String) : Option String × Option String :=
  whichGo env text (lowerStr text) incident_type rules

/-! ## Keyword alternation scanners (`\b(kw1|kw2|...)\b`) -/

/-- One position of the alternation search: a word boundary before, some
keyword as a literal prefix, and a word boundary after it. -/
def kwHitHere (kws : List (List Char)) (prevW : Bool) (s : List Char) : Bool :=
  !prevW && kws.any (fun kw => kw.isPrefixOf s && endB (s.drop kw.length))

def kwSearchAux (kws : List (List Char)) : Bool → List Char → Bool
  | prevW, [] => kwHitHere kws prevW []
  | prevW, c :: cs => kwHitHere kws prevW (c :: cs) || kwSearchAux kws (isWordChar c) cs

/-- Embeds `re.search(r"\b(kw1|...|kwn)\b", s) is not None` for literal keywords. -/
def kwSearch (kws : List (List Char)) (s : List Char) : Bool := kwSearchAux kws false s

/-- The pattern `r"\b(blood|bleeding|broken|fracture)\b"`. -/
def firstAidKws : List (List Char) :=
  (["blood", "bleeding", "broken", "fracture"].map String.data)

/-- The pattern `r"\b(999|ambulance|emergency services|paramedic)\b"`. -/
def emergencyKws : List (List Char) :=
  (["999", "ambulance", "emergency services", "paramedic"].map String.data)

/-! ## Rule extractor (`app/rules/extract.py`) -/

/-- One evidence entry. -/
structure Ev where
  field : String
  quote : String
  start_idx : Option Nat
  end_idx : Option Nat
deriving DecidableEq, Repr

/-- A facts dict: `some v` means the key is present with value `v`
(`some none` is a present key holding `None`). -/
structure FactsBag where
  date_time_of_incident : Option (Option String) := none
  service_user_name : Option (Option String) := none
  location : Option (Option String) := none
  incident_type : Option (Option String) := none
  description : Option String := none
  immediate_actions_taken : Option (Option String) := none
  was_first_aid_administered : Option Bool := none
  were_emergency_services_contacted : Option Bool := none
  who_was_notified : Option (Option String) := none
  witnesses : Option (Option String) := none
  agreed_next_steps : Option (Option String) := none
  risk_assessment_needed : Option Bool := none
  if_yes_which_risk_assessment : Option (Option String) := none
deriving DecidableEq, Repr

/-- Python truthiness of the dict: non-empty iff some key is present. -/
def FactsBag.nonempty (b : FactsBag) : Bool :=
  b.date_time_of_incident.isSome || b.service_user_name.isSome ||
  b.location.isSome || b.incident_type.isSome || b.description.isSome ||
  b.immediate_actions_taken.isSome || b.was_first_aid_administered.isSome ||
  b.were_emergency_services_contacted.isSome || b.who_was_notified.isSome ||
  b.witnesses.isSome || b.agreed_next_steps.isSome ||
  b.risk_assessment_needed.isSome || b.if_yes_which_risk_assessment.isSome

/-- Match `[A-Z][a-z]+` at the head (the maximal lowercase run is the only viable
choice before `\.?\s+` and before a trailing `\b`); returns
`(groupLen, rest)`. -/
def takeUpperLower : List Char → Option (Nat × List Char)
  | [] => none
  | u :: t =>
    if isUpperAZ u then
      let r := t.takeWhile isLowerAZ
      if r.isEmpty then none else some (1 + r.length, t.drop r.length)
    else none

/-- The introduction pattern `r"\bit['’]s\s+([A-Z][a-z]+)\.?\s+([A-Z][a-z]+)\b"` matched at one
position (case-sensitive: the source passes no flag).  Returns
`(totalLen, g1off, g1len, g2off, g2len)` with offsets relative to the match
start. -/
def matchIntroAt (prevW : Bool) (s : List Char) :
    Option (Nat × Nat × Nat × Nat × Nat) :=
  if prevW then none else do
    let s0 ← (match s with
              | 'i' :: 't' :: c :: 's' :: rest =>
                if c == Char.ofNat 39 || c == '’' then some rest else none
              | _ => none)
    let (w1, s1) ← skipWs1 s0
    let (g1len, s2) ← takeUpperLower s1
    let (dotn, s3) := (match s2 with
                       | '.' :: tl => (1, tl)
                       | _ => (0, s2))
    let (w2, s4) ← skipWs1 s3
    let (g2len, s5) ← takeUpperLower s4
    if endB s5 then
      let g1off := 4 + w1
      let g2off := g1off + g1len + dotn + w2
      some (g2off + g2len, g1off, g1len, g2off, g2len)
    else none

/-- The inner loop of `_find_spans` composed with its use in the
incident-type loop: only the first span is consumed; `re.finditer` raises
`re.error` on an invalid pattern (no guard in this file). -/
def patScan (env : RegexEnv) (text : String) : List String → Except PyErr (Option (Nat × Nat))
  | [] => .ok none
  | p :: ps =>
    if env.valid p then
      match env.search p text with
      | some se => .ok (some se)
      | none => patScan env text ps
    else .error .reError

/-- The incident-type loop: first type (in map order) whose pattern list has
a match wins. -/
def incidentScan (env : RegexEnv) (text : String) :
    List (String × List String) → Except PyErr (Option (String × Nat × Nat))
  | [] => .ok none
  | (t, pats) :: rest => do
    match (← patScan env text pats) with
    | some (s, e) => return some (t, s, e)
    | none => incidentScan env text rest

/-- The location loop: first configured location (in loaded order) occurring
as a substring of the lowercased text. -/
def locationScan (locations : List String) (low : String) : Option (String × Nat) :=
  locations.findSome? (fun loc =>
    (firstOccurrence loc.data low.data).map (fun i => (loc, i)))

/-- Output of `extract_with_rules` (the always-empty `debug` dict is
omitted; the orchestrator discards it). -/
structure RulesOut where
  facts : FactsBag
  evidence : List Ev
deriving DecidableEq, Repr

/-- The initial facts dict of `extract_with_rules`: every key present. -/
def rules_facts0 (text : String) : FactsBag :=
  { incident_type := some none, service_user_name := some none,
    location := some none, description := some (pyStrip text),
    immediate_actions_taken := some none,
    was_first_aid_administered := some false,
    were_emergency_services_contacted := some false,
    who_was_notified := some none, witnesses := some none,
    agreed_next_steps := some none, risk_assessment_needed := some false,
    if_yes_which_risk_assessment := some none,
    date_time_of_incident := some none }

/-- Service-user-name step (`re.search` of the introduction pattern on the
original text; evidence records `m.start(1)`/`m.end(2)`). -/
def rules_name_stage (text : String) (st : FactsBag × List Ev) : FactsBag × List Ev :=
  match reSearch matchIntroAt text.data with
  | some (pos, len, g1off, g1len, g2off, g2len) =>
    let nm := sliceChars text.data (pos + g1off) g1len ++ " " ++
              sliceChars text.data (pos + g2off) g2len
    ({ st.1 with service_user_name := some (some nm) },
     st.2 ++ [⟨"service_user_name", sliceChars text.data pos len,
               some (pos + g1off), some (pos + g2off + g2len)⟩])
  | none => st

/-- Incident-type step: `scanRes` is the outcome of the config-pattern loop. -/
def rules_incident_stage (text : String) (scanRes : Option (String × Nat × Nat))
    (st : FactsBag × List Ev) : FactsBag × List Ev :=
  match scanRes with
  | some (t, s, e) =>
    ({ st.1 with incident_type := some (some t) },
     st.2 ++ [⟨"incident_type", sliceChars text.data s (e - s), some s, some e⟩])
  | none => st

/-- Location step: first configured location found as a substring. -/
def rules_location_stage (locations : List String) (text low : String)
    (st : FactsBag × List Ev) : FactsBag × List Ev :=
  match locationScan locations low with
  | some (loc, idx) =>
    ({ st.1 with location := some (some loc) },
     st.2 ++ [⟨"location", sliceChars text.data idx loc.length,
              some idx, some (idx + loc.length)⟩])
  | none => st

/-- First-aid step: the injury-keyword branch assigns `False` again. -/
def rules_first_aid_stage (low : String) (st : FactsBag × List Ev) : FactsBag × List Ev :=
  if kwSearch firstAidKws low.data then
    ({ st.1 with was_first_aid_administered := some false }, st.2)
  else st

/-- Emergency-services step. -/
def rules_emergency_stage (low : String) (st : FactsBag × List Ev) : FactsBag × List Ev :=
  if kwSearch emergencyKws low.data then
    ({ st.1 with were_emergency_services_contacted := some true }, st.2)
  else st

/-- Risk-assessment step, delegating to `which_risk_assessment` and
best-effort re-locating the quote via `low.find`. -/
def rules_assessment_stage (env : RegexEnv) (arules : List ARule) (text low : String)
    (st : FactsBag × List Ev) : FactsBag × List Ev :=
  match which_risk_assessment env arules text st.1.incident_type.join with
  | (some aname, quoteOpt) =>
    let f := { st.1 with risk_assessment_needed := some true,
                         if_yes_which_risk_assessment := some (some aname) }
    match quoteOpt with
    | some q =>
      let i := firstOccurrence (lowerStr q).data low.data
      (f, st.2 ++ [⟨"risk_assessment_needed", q, i, i.map (· + q.length)⟩])
    | none => (f, st.2)
  | (none, _) => st

/-- Falls-specific notification hint. -/
def rules_falls_stage (st : FactsBag × List Ev) : FactsBag × List Ev :=
  if st.1.incident_type.join == some "fall" then
    let hint := "Supervisor (mandatory); CC Risk Assessor if recurring falls"
    ({ st.1 with who_was_notified := some (some hint) }, st.2)
  else st

/-- Embeds `extract_with_rules(text)` over the loaded configuration
(incident-type `patterns`/`locations` from `load_incident_config_strict`;
`arules` the normalized assessment rules): the steps above in source order.
The always-empty `debug` dict is omitted; the orchestrator discards it. -/
def extract_with_rules (env : RegexEnv) (patterns : List (String × List String))
    (locations : List String) (arules : List ARule) (text : String) :
    Except PyErr RulesOut := do
  let low := lowerStr text
  let st1 := rules_name_stage text (rules_facts0 text, [])
  let scanRes ← incidentScan env text patterns
  let st2 := rules_incident_stage text scanRes st1
  let st3 := rules_location_stage locations text low st2
  let st4 := rules_first_aid_stage low st3
  let st5 := rules_emergency_stage low st4
  let st6 := rules_assessment_stage env arules text low st5
  let st7 := rules_falls_stage st6
  return ⟨st7.1, st7.2⟩

/-! ## Orchestrator (`app/services/orchestrator.py`) -/

/-- Python truthiness of an optional string (`None` and `""` are falsy). -/
def optTruthy : Option String → Bool
  | some s => s != ""
  | none => false

/-- Embeds `form.get(k) or default`. -/
def orDefault (o : Option String) (d : String) : String :=
  match o with
  | some s => if s == "" then d else s
  | none => d

/-- Embeds `f"{existing} | {x}" if existing else x`. -/
def appendPiece (existing : Option String) (x : String) : String :=
  match existing with
  | some s => if s == "" then x else s ++ " | " ++ x
  | none => x

/-- The low-confidence confirmation hint string. -/
def confirmHint : String := "Incident time inferred from context – please confirm"

/-- The canonical incident form (keys of `_default_form`). -/
structure Form where
  date_time_of_incident : Option String
  reported_at : String
  service_user_name : Option String
  location : Option String
  type_of_incident : Option String
  description_of_the_incident : String
  immediate_actions_taken : Option String
  was_first_aid_administered : Bool
  were_emergency_services_contacted : Bool
  who_was_notified : Option String
  witnesses : Option String
  agreed_next_steps : Option String
  risk_assessment_needed : Bool
  if_yes_which_risk_assessment : Option String
deriving DecidableEq, Repr

/-- Embeds `_default_form()`; `now` stands for the `datetime.now(tz=UK_TZ)` stamp. -/
def default_form (now : DT) : Form where
  date_time_of_incident := none
  reported_at := isoformat now
  service_user_name := none
  location := none
  type_of_incident := none
  description_of_the_incident := ""
  immediate_actions_taken := none
  was_first_aid_administered := false
  were_emergency_services_contacted := false
  who_was_notified := none
  witnesses := none
  agreed_next_steps := none
  risk_assessment_needed := false
  if_yes_which_risk_assessment := none

/-- Embeds `_facts_to_form(facts)`: overwrite each form field whose source key is
present in the facts dict, under the fixed rename map; `reported_at` is
never overwritten. -/
def facts_to_form (now : DT) (b : FactsBag) : Form :=
  let f := default_form now
  { date_time_of_incident := b.date_time_of_incident.getD f.date_time_of_incident
    reported_at := f.reported_at
    service_user_name := b.service_user_name.getD f.service_user_name
    location := b.location.getD f.location
    type_of_incident := b.incident_type.getD f.type_of_incident
    description_of_the_incident := b.description.getD f.description_of_the_incident
    immediate_actions_taken := b.immediate_actions_taken.getD f.immediate_actions_taken
    was_first_aid_administered :=
      b.was_first_aid_administered.getD f.was_first_aid_administered
    were_emergency_services_contacted :=
      b.were_emergency_services_contacted.getD f.were_emergency_services_contacted
    who_was_notified := b.who_was_notified.getD f.who_was_notified
    witnesses := b.witnesses.getD f.witnesses
    agreed_next_steps := b.agreed_next_steps.getD f.agreed_next_steps
    risk_assessment_needed := b.risk_assessment_needed.getD f.risk_assessment_needed
    if_yes_which_risk_assessment :=
      b.if_yes_which_risk_assessment.getD f.if_yes_which_risk_assessment }

/-- Embeds `_llm_datetime_fallback(form, transcript, evidence)`; `now` is the
call-time anchor. -/
def llm_datetime_fallback (form : Form) (transcript : String) (now : DT)
    (evidence : List Ev) : Form × List Ev :=
  if optTruthy form.date_time_of_incident then (form, evidence)
  else
    let info := extract_incident_datetime transcript now
    if !optTruthy info.value then (form, evidence)
    else
      let form1 := { form with date_time_of_incident := info.value }
      let form2 :=
        if info.confidence == "low" then
          let acts := appendPiece form.immediate_actions_taken confirmHint
          { form1 with immediate_actions_taken := some acts }
        else form1
      let ev2 :=
        if optTruthy info.evidence_quote then
          evidence ++ [⟨"date_time_of_incident", info.evidence_quote.getD "", none, none⟩]
        else evidence
      (form2, ev2)

/-- The list `_EXPLICIT_DATE_REGEXES` holds the same four date shapes as
`DATE_PATTERNS`; `_has_explicit_date` lowercases and searches (the
per-pattern `re.error` guard is unreachable for these valid literals). -/
def has_explicit_date (text : String) : Bool :=
  let low := lowerStr text
  dateScanners.any (fun sc => (reSearch sc low.data).isSome)

/-- Embeds `_parse_iso`: `None`/empty is a parse failure; otherwise
`fromisoformat`, which yields an aware datetime only when the string carries
an offset. -/
def parse_iso : Option String → Option PyDT
  | none => none
  | some s => if s == "" then none else parseIsoChars s.data

/-- Seconds from the epoch of the instant an aware datetime denotes: civil
seconds minus the UTC offset. -/
def awareToUtcSec (civil : DT) (offMinutes : Int) : Int :=
  dtToSec civil - offMinutes * 60

/-- Embeds `_sanity_fix_incident_time(form, transcript, anchor, evidence)`.
The anchor is `datetime.now(tz=UK_TZ)`, aware with the London offset at its
wall time.  The subtraction `dt - anchor` is only defined when the parsed
datetime is aware; for a naive one (offset-less string) Python raises an
uncaught `TypeError` at that line.  For aware values, `total_seconds` of the
difference is the difference of the two UTC instants. -/
def sanity_fix_incident_time (form : Form) (transcript : String) (anchor : DT)
    (evidence : List Ev) : Except PyErr (Form × List Ev) :=
  match parse_iso form.date_time_of_incident with
  | none => .ok (form, evidence)
  | some p =>
    if has_explicit_date transcript then .ok (form, evidence)
    else
      match p.offsetMinutes with
      | none => .error .typeError
      | some off =>
        if (awareToUtcSec p.civil off -
              awareToUtcSec anchor (ukOffsetMinutes anchor)).natAbs > 7 * 24 * 3600 then
          let info := extract_incident_datetime transcript anchor
          if optTruthy info.value then
            let form1 := { form with date_time_of_incident := info.value }
            let form2 :=
              if info.confidence == "low" then
                let acts := appendPiece form.immediate_actions_taken confirmHint
                { form1 with immediate_actions_taken := some acts }
              else form1
            let ev2 :=
              if optTruthy info.evidence_quote then
                evidence ++ [⟨"date_time_of_incident", info.evidence_quote.getD "", none, none⟩]
              else evidence
            .ok (form2, ev2)
          else .ok ({ form with date_time_of_incident := none }, evidence)
        else .ok (form, evidence)

/-- The two trigger pattern lists from
`notifications.global_policy_triggers`. -/
structure Triggers where
  contact_gp_if : List String
  call_999_if : List String
deriving DecidableEq, Repr

/-- One trigger loop: first valid pattern with a match fires (a bad regex is
skipped by the `except re.error: continue`). -/
def triggerFired (env : RegexEnv) (pats : List String) (low : String) : Bool :=
  pats.any (fun p => env.valid p && (env.search p low).isSome)

/-- Embeds `_maybe_append_action(form, transcript)`. -/
def maybe_append_action (env : RegexEnv) (trig : Triggers) (form : Form)
    (transcript : String) : Form :=
  let low := lowerStr transcript
  let actions :=
    (if triggerFired env trig.contact_gp_if low then
       ["Contact GP immediately (policy trigger)"] else []) ++
    (if triggerFired env trig.call_999_if low then
       ["Call 999 / emergency services (life-threatening trigger)"] else [])
  if actions.isEmpty then form
  else
    let acts := appendPiece form.immediate_actions_taken (String.intercalate " | " actions)
    { form with immediate_actions_taken := some acts }

/-- The notifications policy block, as `_build_email` reads it
(`always_notify` with default `"Supervisor"`, `cc_by_assessment` mapping). -/
structure Notifs where
  always_notify : Option String
  cc_by_assessment : List (String × String)
deriving DecidableEq, Repr

/-- Embeds `if ra_name and ra_name in cc_map: cc.append(cc_map[ra_name])`. -/
def emailCc (notifs : Notifs) (form : Form) : List String :=
  match form.if_yes_which_risk_assessment with
  | some ra =>
    if ra != "" then
      match (notifs.cc_by_assessment.find? (fun kv => kv.1 == ra)).map Prod.snd with
      | some addr => [addr]
      | none => []
    else []
  | none => []

/-- The `lines` list of `_build_email`, built after the in-place
`who_was_notified` default; the missing-CC placeholder is the empty string.
The source joins `[l for l in lines if l is not None]`, and every element is
a string, so the filter removes nothing. -/
def buildEmailLines (notifs : Notifs) (form0 : Form) : List String :=
  let to_addr := notifs.always_notify.getD "Supervisor"
  let cc := emailCc notifs form0
  let form :=
    if optTruthy form0.who_was_notified then form0
    else { form0 with who_was_notified := some to_addr }
  let ra_name := form0.if_yes_which_risk_assessment
  let subject := "Incident report: " ++ orDefault form.type_of_incident "Unknown" ++
    " – " ++ orDefault form.service_user_name "Service User"
  [ "To: " ++ to_addr,
    if !cc.isEmpty then "CC: " ++ String.intercalate ", " cc else "",
    "Subject: " ++ subject,
    "",
    "Date/Time: " ++ orDefault form.date_time_of_incident "None",
    "Reported At: " ++ orDefault (some form.reported_at) "None",
    "Service User: " ++ orDefault form.service_user_name "Unknown",
    "Location: " ++ orDefault form.location "Unknown",
    "Type: " ++ orDefault form.type_of_incident "Unknown",
    "",
    "Description:",
    (if form.description_of_the_incident == "" then "-" else form.description_of_the_incident),
    "",
    "Immediate Actions Taken:",
    orDefault form.immediate_actions_taken "-",
    "",
    "First Aid: " ++ (if form.was_first_aid_administered then "Yes" else "No"),
    "Emergency Services: " ++ (if form.were_emergency_services_contacted then "Yes" else "No"),
    "Who Was Notified: " ++ orDefault form.who_was_notified "-",
    "Witnesses: " ++ orDefault form.witnesses "-",
    "",
    "Next Steps:",
    orDefault form.agreed_next_steps "-",
    "Risk Assessment Needed: " ++ (if form.risk_assessment_needed then "Yes" else "No"),
    "If Yes, Which: " ++ orDefault ra_name "-" ]

/-- Embeds `_build_email(form)`: returns the rendered text and the form with the
`who_was_notified` default applied in place. -/
def build_email (notifs : Notifs) (form0 : Form) : String × Form :=
  let to_addr := notifs.always_notify.getD "Supervisor"
  let form :=
    if optTruthy form0.who_was_notified then form0
    else { form0 with who_was_notified := some to_addr }
  (String.intercalate "\n" (buildEmailLines notifs form0), form)

/-! ## LLM extractor call (`app/llm/extract.py` + call sites) -/

/-- Python binds call arguments against the callee signature before the body
runs; a keyword argument not among the parameters raises `TypeError` at the
call site, outside any try/except inside the callee. -/
def callWithKwargs (params : List String) (kwargs : List String)
    (body : Except PyErr α) : Except PyErr α :=
  if kwargs.all (fun k => params.contains k) then body else .error .typeError

/-- In `def extract_with_llm(text)`: the only parameter. -/
def extract_with_llm_params : List String := ["text"]

/-- Both orchestrator call sites pass
`extract_with_llm(transcript, report_time_iso=anchor_iso)`. -/
def orchestrator_llm_kwargs : List String := ["report_time_iso"]

/-- The call `extract_with_llm(transcript, report_time_iso=anchor_iso)`.
`oracle` abstracts the body of `extract_with_llm` (which catches every
exception itself and returns a pair); the body is unreachable here because
argument binding fails first. -/
def call_extract_with_llm (oracle : String → String → FactsBag × List Ev)
    (transcript anchorIso : String) : Except PyErr (FactsBag × List Ev) :=
  callWithKwargs extract_with_llm_params orchestrator_llm_kwargs
    (.ok (oracle transcript anchorIso))

/-- The response of the analyze operations. -/
structure AnalyzeResult where
  extraction_source : String
  incident_form : Form
  evidence : List Ev
  draft_email : String
deriving DecidableEq, Repr

/-- The shared tail of both analyze operations after source selection:
normalization, datetime fallback, the sanity pass (which can raise),
policy-trigger injection and email rendering, returning the response with
the already-decided source label. -/
def analyze_finish (env : RegexEnv) (trig : Triggers) (notifs : Notifs)
    (anchor : DT) (transcript : String) (source : String)
    (facts : FactsBag) (evidence : List Ev) : Except PyErr AnalyzeResult := do
  let form0 := facts_to_form anchor facts
  let st1 := llm_datetime_fallback form0 transcript anchor evidence
  let (form2, ev2) ← sanity_fix_incident_time st1.1 transcript anchor st1.2
  let form3 := maybe_append_action env trig form2 transcript
  let be := build_email notifs form3
  return { extraction_source := source, incident_form := be.2,
           evidence := ev2, draft_email := be.1 }

/-- Embeds `analyze_transcript(transcript)`.  Here `keyPresent` is
`bool(os.getenv("OPENAI_API_KEY"))`; `anchor` the call-start instant (the
two `datetime.now` calls within one request are identified). -/
def analyze_transcript (oracle : String → String → FactsBag × List Ev)
    (env : RegexEnv) (patterns : List (String × List String))
    (locations : List String) (arules : List ARule) (trig : Triggers)
    (notifs : Notifs) (keyPresent : Bool) (anchor : DT) (transcript : String) :
    Except PyErr AnalyzeResult := do
  let anchorIso := isoformat anchor
  let llmPair : FactsBag × List Ev :=
    if keyPresent then
      match call_extract_with_llm oracle transcript anchorIso with
      | .ok p => p
      | .error _ => ({}, [])
    else ({}, [])
  let (facts, evidence, source) ←
    if !llmPair.1.nonempty then do
      let r ← extract_with_rules env patterns locations arules transcript
      pure (r.facts, r.evidence, "rules")
    else
      pure (llmPair.1, llmPair.2, "llm")
  analyze_finish env trig notifs anchor transcript source facts evidence

/-- Embeds `analyze_transcript_llm_only(transcript)`: the `extract_with_llm` call is
not guarded by any try/except. -/
def analyze_transcript_llm_only (oracle : String → String → FactsBag × List Ev)
    (env : RegexEnv) (trig : Triggers) (notifs : Notifs) (anchor : DT)
    (transcript : String) : Except PyErr AnalyzeResult := do
  let anchorIso := isoformat anchor
  let (facts, evidence) ← call_extract_with_llm oracle transcript anchorIso
  analyze_finish env trig notifs anchor transcript
    (if facts.nonempty then "llm" else "llm_empty") facts evidence

/-! ## Helpers for the claim theorems -/

/-- Whether an `Except` value is a success. -/
def isOkE (x : Except ε α) : Bool :=
  match x with
  | .ok _ => true
  | .error _ => false

/-- A successful `Except` bind splits into two successful halves. -/
theorem exceptBind_ok {ε α β : Type} (step : Except ε α) (rest : α → Except ε β)
    (out : β) (h : (step >>= rest) = .ok out) :
    ∃ mid, step = .ok mid ∧ rest mid = .ok out := by
  cases step with
  | ok mid => exact ⟨mid, rfl, h⟩
  | error e => simp [bind, Except.bind] at h

/-- The response of `analyze_finish` keeps the source label it was given. -/
theorem analyze_finish_source (env : RegexEnv) (trig : Triggers) (notifs : Notifs)
    (anchor : DT) (transcript source : String) (facts : FactsBag)
    (evidence : List Ev) (r : AnalyzeResult)
    (h : analyze_finish env trig notifs anchor transcript source facts evidence = .ok r) :
    r.extraction_source = source := by
  unfold analyze_finish at h
  obtain ⟨p, hp, hf⟩ := exceptBind_ok _ _ _ h
  obtain ⟨f2, e2⟩ := p
  simp only [pure, Except.pure, Except.ok.injEq] at hf
  subst hf
  rfl

/-! ## Claim theorems -/

/-- C1: the claim says LLM extraction never propagates an exception and the
forced llm-only analysis always completes with label "llm"/"llm_empty".  In
the code, `extract_with_llm(text)` does not accept the keyword argument
`report_time_iso` that both orchestrator call sites pass, so the unguarded
call in `analyze_transcript_llm_only` raises `TypeError` for every
transcript, whatever the model would have answered: the code contradicts the
documented contract (and the orchestrator's own intent of passing the
anchor), a code bug. -/
theorem C1_llm_only_always_raises (oracle : String → String → FactsBag × List Ev)
    (env : RegexEnv) (trig : Triggers) (notifs : Notifs) (anchor : DT)
    (transcript : String) :
    analyze_transcript_llm_only oracle env trig notifs anchor transcript =
      .error .typeError := rfl

/-- C10: the explicit time pass accepts an out-of-range clock token and wraps
it modulo 24/60: a transcript whose only temporal token is "45:99" yields
21:39 on the anchor date, method "explicit", confidence "medium". -/
theorem C10_out_of_range_time_wraps (now : DT) :
    extract_incident_datetime "45:99" now =
      ⟨some (isoformat { now with hour := 21, minute := 39, second := 0 }),
       "medium", "explicit", some "45:99"⟩ := rfl

/-- C4: in the explicit pass, whenever an explicit date or an explicit time
was found, the date component comes from the date match (or the reference
instant's date when only a time matched), the time component from the time
match (or 12:00 when only a date matched), confidence is "high" exactly when
both matched and "medium" when exactly one did, and the evidence quote
prefers the time match over the date match. -/
theorem C4_explicit_pass_composition (text : String) (now : DT)
    (h : (datePass text.data).2.isSome = true ∨
         (timePass (lowerStr text).data).2.isSome = true) :
    extract_incident_datetime text now =
      { value := some (isoformat
          { (datePass text.data).2.getD now with
            hour := ((timePass (lowerStr text).data).2.getD (12, 0)).1,
            minute := ((timePass (lowerStr text).data).2.getD (12, 0)).2,
            second := 0 }),
        confidence :=
          if (datePass text.data).2.isSome && (timePass (lowerStr text).data).2.isSome
          then "high" else "medium",
        method := "explicit",
        evidence_quote := (timePass (lowerStr text).data).1 <|> (datePass text.data).1 } := by
  have hc : ((datePass text.data).2.isSome || (timePass (lowerStr text).data).2.isSome) = true := by
    rcases h with h | h <;> simp [h]
  simp only [extract_incident_datetime, hc, if_true]

/-- Witness for C4 at the spec's concrete example: "15/03/2024 at 2:30pm"
yields local 14:30 on 2024-03-15 with confidence high and quote "2:30pm". -/
theorem C4_explicit_pass_composition_witness :
    ((datePass "15/03/2024 at 2:30pm".data).2.isSome = true ∨
     (timePass (lowerStr "15/03/2024 at 2:30pm").data).2.isSome = true) ∧
    extract_incident_datetime "15/03/2024 at 2:30pm" ⟨2025, 9, 25, 10, 0, 0⟩ =
      ⟨some "2024-03-15T14:30:00+00:00", "high", "explicit", some "2:30pm"⟩ :=
  ⟨Or.inl rfl,
   C4_explicit_pass_composition "15/03/2024 at 2:30pm" ⟨2025, 9, 25, 10, 0, 0⟩ (Or.inl rfl)⟩

/-- C5 counterexample: the claim says that when no CC recipient applies the
CC line is omitted entirely and no empty line appears between the To and
Subject lines.  In the code the missing-CC placeholder is the empty string
and the join filter only removes `None`, so with no CC configured the
rendered email's second line is empty, between "To: ..." and "Subject: ...". -/
theorem C5_blank_cc_line_counterexample :
    (buildEmailLines ⟨none, []⟩ (default_form ⟨2024, 1, 1, 0, 0, 0⟩)).take 3 =
      ["To: Supervisor", "", "Subject: Incident report: Unknown – Service User"] ∧
    (build_email ⟨none, []⟩ (default_form ⟨2024, 1, 1, 0, 0, 0⟩)).1 =
      String.intercalate "\n"
        (buildEmailLines ⟨none, []⟩ (default_form ⟨2024, 1, 1, 0, 0, 0⟩)) :=
  ⟨rfl, rfl⟩

/-- C5 (amended): the CC line carries content exactly when a CC recipient is
configured for the selected risk assessment; when it does not apply, an
empty string remains at the CC position (index 1, between To and Subject),
producing a blank line in the joined email rather than an omitted line. -/
theorem C5_cc_line_presence (notifs : Notifs) (form : Form) :
    ((buildEmailLines notifs form).get? 0 =
       some ("To: " ++ notifs.always_notify.getD "Supervisor")) ∧
    (∀ ra addr, form.if_yes_which_risk_assessment = some ra → ra ≠ "" →
       (notifs.cc_by_assessment.find? (fun kv => kv.1 == ra)).map Prod.snd = some addr →
       (buildEmailLines notifs form).get? 1 = some ("CC: " ++ addr)) ∧
    (emailCc notifs form = [] → (buildEmailLines notifs form).get? 1 = some "") ∧
    ((build_email notifs form).1 = String.intercalate "\n" (buildEmailLines notifs form)) := by
  refine ⟨rfl, ?_, ?_, rfl⟩
  · intro ra addr hra hne hfind
    have hcc : emailCc notifs form = [addr] := by
      simp [emailCc, hra, hne, hfind]
    simp [buildEmailLines, hcc, String.intercalate, String.intercalate.go]
  · intro hcc
    simp [buildEmailLines, hcc]

/-- Witness for C5 at concrete inputs: a configured CC produces the CC line,
an unconfigured one leaves the empty placeholder. -/
theorem C5_cc_line_presence_witness :
    ((default_form ⟨2024, 1, 1, 0, 0, 0⟩).if_yes_which_risk_assessment = none) ∧
    (emailCc ⟨none, []⟩ (default_form ⟨2024, 1, 1, 0, 0, 0⟩) = []) ∧
    ((buildEmailLines ⟨none, []⟩ (default_form ⟨2024, 1, 1, 0, 0, 0⟩)).get? 1 = some "") ∧
    ({ default_form ⟨2024, 1, 1, 0, 0, 0⟩ with
        if_yes_which_risk_assessment := some "medication management review"
     }.if_yes_which_risk_assessment = some "medication management review") ∧
    ((buildEmailLines ⟨some "Supervisor", [("medication management review", "Risk Assessor")]⟩
        { default_form ⟨2024, 1, 1, 0, 0, 0⟩ with
          if_yes_which_risk_assessment := some "medication management review" }).get? 1 =
      some ("CC: " ++ "Risk Assessor")) := by
  refine ⟨rfl, rfl, ?_, rfl, ?_⟩
  · exact (C5_cc_line_presence ⟨none, []⟩ (default_form ⟨2024, 1, 1, 0, 0, 0⟩)).2.2.1 rfl
  · exact (C5_cc_line_presence
      ⟨some "Supervisor", [("medication management review", "Risk Assessor")]⟩
      { default_form ⟨2024, 1, 1, 0, 0, 0⟩ with
        if_yes_which_risk_assessment := some "medication management review" }).2.1
      "medication management review" "Risk Assessor" rfl (by decide) rfl

/-- Embeds `data = yaml.safe_load(f) or {}` followed by `.get(k)`: an empty map is
replaced by the empty default, with the same lookup result. -/
theorem yGet_yOr_map (kvs : List (String × Yaml)) (k : String) :
    yGet (yOr (.map kvs) (.map [])) k =
      .ok (((kvs.find? (fun kv => kv.1 == k)).map Prod.snd).getD .null) := by
  cases kvs <;> simp [yGet, yOr, Yaml.truthy]

/-- C6 counterexample: the claim says the strict load fails when `patterns`
is not a mapping.  With `patterns: []` (an empty list — not a mapping) the
`or {}` coercion of the falsy value makes the shape check pass and the load
succeeds. -/
theorem C6_falsy_patterns_counterexample :
    load_incident_config_strict
        (some (.map [("patterns", .list []), ("locations", .list [.str "Kitchen"])])) =
      .ok ([], ["kitchen"]) := rfl

/-- C6 (amended): the strict load fails when the backing resource is missing,
and when the effective `patterns` value (falsy values default to the empty
mapping) is a truthy non-mapping, or the effective `locations` value is a
truthy non-list; a falsy wrongly-shaped value such as an empty list is
coerced to the empty default and does not fail.  Otherwise it returns the
patterns mapping together with the locations lowercased, and absent
`notifications`/`assessments` blocks default to empty structures without
failure. -/
theorem C6_strict_load_shape :
    (load_incident_config_strict none = .error .notFound) ∧
    (∀ kvs p, ((kvs.find? (fun kv => kv.1 == "patterns")).map Prod.snd).getD .null = p →
       p.truthy = true → p.isMap = false →
       load_incident_config_strict (some (.map kvs)) = .error .invalidStructure) ∧
    (∀ kvs l, ((kvs.find? (fun kv => kv.1 == "locations")).map Prod.snd).getD .null = l →
       l.truthy = true → l.isList = false →
       load_incident_config_strict (some (.map kvs)) = .error .invalidStructure) ∧
    (∀ kvs pkvs lxs ls,
       yOr (((kvs.find? (fun kv => kv.1 == "patterns")).map Prod.snd).getD .null) (.map []) =
         .map pkvs →
       yOr (((kvs.find? (fun kv => kv.1 == "locations")).map Prod.snd).getD .null) (.list []) =
         .list lxs →
       lxs.mapM yLower = Except.ok ls →
       load_incident_config_strict (some (.map kvs)) = .ok (pkvs, ls)) ∧
    (∀ s, yLower (.str s) = .ok (lowerStr s)) ∧
    (∀ kvs, kvs.find? (fun kv => kv.1 == "notifications") = none →
       load_notifications_cfg (some (.map kvs)) = .ok (.map [])) ∧
    (∀ kvs, kvs.find? (fun kv => kv.1 == "assessments") = none →
       load_assessment_rules_cfg (some (.map kvs)) = .ok []) := by
  refine ⟨rfl, ?_, ?_, ?_, fun s => rfl, ?_, ?_⟩
  · intro kvs p hp htru hmap
    simp only [load_incident_config_strict, bind, Except.bind,
               yGet_yOr_map kvs "patterns", yGet_yOr_map kvs "locations", hp]
    have : yOr p (.map []) = p := by simp [yOr, htru]
    rw [this]
    cases p <;> simp_all [Yaml.isMap]
  · intro kvs l hl htru hlist
    simp only [load_incident_config_strict, bind, Except.bind,
               yGet_yOr_map kvs "patterns", yGet_yOr_map kvs "locations", hl]
    have : yOr l (.list []) = l := by simp [yOr, htru]
    rw [this]
    cases l <;> simp_all [Yaml.isList]
  · intro kvs pkvs lxs ls hp hl hlow
    simp only [load_incident_config_strict, bind, Except.bind,
               yGet_yOr_map kvs "patterns", yGet_yOr_map kvs "locations", hp, hl, hlow]
    rfl
  · intro kvs hn
    simp only [load_notifications_cfg, bind, Except.bind,
               yGet_yOr_map kvs "notifications", hn]
    simp [yOr, Yaml.truthy]
    rfl
  · intro kvs ha
    simp only [load_assessment_rules_cfg, bind, Except.bind,
               yGet_yOr_map kvs "assessments", ha]
    simp [yOr, Yaml.truthy]
    rfl

/-- Witness for C6 at concrete inputs: a truthy non-mapping `patterns` fails,
a well-shaped config loads with lowercased locations, absent blocks default. -/
theorem C6_strict_load_shape_witness :
    ((([(("patterns" : String), Yaml.str "oops")].find?
        (fun kv => kv.1 == "patterns")).map Prod.snd).getD .null = Yaml.str "oops") ∧
    ((Yaml.str "oops").truthy = true) ∧ ((Yaml.str "oops").isMap = false) ∧
    (load_incident_config_strict (some (.map [("patterns", .str "oops")])) =
       .error .invalidStructure) ∧
    (load_incident_config_strict
        (some (.map [("patterns", .map [("fall", .list [.str "fell"])]),
                     ("locations", .list [.str "Living Room"])])) =
      .ok ([("fall", .list [.str "fell"])], ["living room"])) ∧
    (load_notifications_cfg (some (.map [("patterns", .str "x")])) = .ok (.map [])) := by
  refine ⟨rfl, rfl, rfl, ?_, ?_, ?_⟩
  · exact C6_strict_load_shape.2.1 [("patterns", .str "oops")] (Yaml.str "oops") rfl rfl rfl
  · exact C6_strict_load_shape.2.2.2.1
      [("patterns", .map [("fall", .list [.str "fell"])]),
       ("locations", .list [.str "Living Room"])]
      [("fall", .list [.str "fell"])] [.str "Living Room"] ["living room"] rfl rfl rfl
  · exact C6_strict_load_shape.2.2.2.2.2.1 [("patterns", .str "x")] rfl

/-- The unguarded incident-type pattern loop succeeds when every pattern
compiles. -/
theorem patScan_ok_of_valid (env : RegexEnv) (text : String) (pats : List String)
    (h : ∀ p ∈ pats, env.valid p = true) : ∃ o, patScan env text pats = .ok o := by
  induction pats with
  | nil => exact ⟨none, rfl⟩
  | cons p ps ih =>
    have hp := h p (List.mem_cons_self p ps)
    have hrest := fun q hq => h q (List.mem_cons_of_mem p hq)
    unfold patScan
    rw [hp]
    simp only [if_true]
    cases hs : env.search p text with
    | some se => exact ⟨some se, rfl⟩
    | none => exact ih hrest

theorem incidentScan_ok_of_valid (env : RegexEnv) (text : String)
    (patterns : List (String × List String))
    (h : ∀ tp ∈ patterns, ∀ p ∈ tp.2, env.valid p = true) :
    ∃ o, incidentScan env text patterns = .ok o := by
  induction patterns with
  | nil => exact ⟨none, rfl⟩
  | cons tp rest ih =>
    obtain ⟨o, ho⟩ := patScan_ok_of_valid env text tp.2 (h tp (List.mem_cons_self tp rest))
    obtain ⟨o2, ho2⟩ := ih (fun q hq => h q (List.mem_cons_of_mem tp hq))
    cases tp with
    | mk t pats =>
      unfold incidentScan
      rw [show patScan env text pats = .ok o from ho]
      cases o with
      | some se => exact ⟨some (t, se.1, se.2), rfl⟩
      | none => exact ⟨o2, by simpa [bind, Except.bind] using ho2⟩

/-- C2 counterexample: the claim says the rule extractor always succeeds and
a malformed incident-type pattern is skipped, never fatal.  With the single
configured pattern "(" (an unbalanced group, rejected by `re.compile`), the
unguarded `re.finditer` in `_find_spans` raises `re.error` and
`extract_with_rules` propagates it. -/
theorem C2_malformed_pattern_counterexample :
    extract_with_rules litEnv [("fall", ["("])] [] [] "he fell down" =
      .error .reError := rfl

/-- C2 (amended): `extract_with_rules` succeeds whenever every configured
incident-type pattern compiles; a malformed pattern in the *assessment*
rules is skipped and never fatal, but a malformed incident-type pattern
raises `re.error` to the caller. -/
theorem C2_extract_succeeds_on_valid_patterns (env : RegexEnv)
    (patterns : List (String × List String)) (locations : List String)
    (arules : List ARule) (text : String)
    (hv : ∀ tp ∈ patterns, ∀ p ∈ tp.2, env.valid p = true) :
    (∃ r, extract_with_rules env patterns locations arules text = .ok r) ∧
    (∀ p ps low, env.valid p = false →
       firstPatMatch env (p :: ps) low = firstPatMatch env ps low) := by
  constructor
  · obtain ⟨o, ho⟩ := incidentScan_ok_of_valid env text patterns hv
    cases hr : extract_with_rules env patterns locations arules text with
    | ok r => exact ⟨r, rfl⟩
    | error e =>
      unfold extract_with_rules at hr
      rw [ho] at hr
      simp [bind, Except.bind, pure, Except.pure] at hr
  · intro p ps low hp
    simp [firstPatMatch, List.findSome?_cons, hp]

/-- Witness for C2 (amended) at a concrete valid configuration. -/
theorem C2_extract_succeeds_on_valid_patterns_witness :
    (∀ tp ∈ [(("fall" : String), ["fell"])], ∀ p ∈ tp.2, litEnv.valid p = true) ∧
    (∃ r, extract_with_rules litEnv [("fall", ["fell"])] ["kitchen"] [] "he fell" = .ok r) := by
  have h : ∀ tp ∈ [(("fall" : String), ["fell"])], ∀ p ∈ tp.2, litEnv.valid p = true := by
    decide
  exact ⟨h, (C2_extract_succeeds_on_valid_patterns litEnv [("fall", ["fell"])]
    ["kitchen"] [] "he fell" h).1⟩

/-- C3 counterexample: the claim says that for every form holding a
parseable incident datetime, absent an explicit date token an implausible
value is replaced or nulled.  "2020-01-01T10:00:00" is parseable — but
offset-less, so `fromisoformat` yields a *naive* datetime, and the
subtraction against the aware anchor raises an uncaught `TypeError`: the
value is neither preserved, replaced nor nulled. -/
theorem C3_naive_value_counterexample :
    (parse_iso (some "2020-01-01T10:00:00") =
       some ⟨⟨2020, 1, 1, 10, 0, 0⟩, none⟩) ∧
    (has_explicit_date "he fell" = false) ∧
    (sanity_fix_incident_time
        { default_form ⟨2024, 6, 1, 12, 0, 0⟩ with
          date_time_of_incident := some "2020-01-01T10:00:00" }
        "he fell" ⟨2024, 6, 1, 12, 0, 0⟩ [] = .error .typeError) :=
  ⟨rfl, rfl, rfl⟩

/-- C3 (amended): for a form holding a parseable incident datetime — if the
transcript contains an explicit calendar date token, the sanity pass returns
the form unchanged unconditionally (the early return precedes the
subtraction).  Without such a token the subtraction `dt - anchor` requires
an *aware* parsed value: a naive one (an offset-less string) raises an
uncaught `TypeError`; for an aware one whose instant differs from the
anchor by more than 7 days in absolute (UTC) time, the value is replaced by
re-running inference (appending the low-confidence confirmation hint to
`immediate_actions_taken` exactly when the new confidence is low) or set to
null when re-inference finds nothing. -/
theorem C3_sanity_fix_behaviour (form : Form) (transcript : String) (anchor : DT)
    (ev : List Ev) (p : PyDT)
    (hparse : parse_iso form.date_time_of_incident = some p) :
    (has_explicit_date transcript = true →
       sanity_fix_incident_time form transcript anchor ev = .ok (form, ev)) ∧
    (has_explicit_date transcript = false → p.offsetMinutes = none →
       sanity_fix_incident_time form transcript anchor ev = .error .typeError) ∧
    (∀ off, has_explicit_date transcript = false → p.offsetMinutes = some off →
       (awareToUtcSec p.civil off - awareToUtcSec anchor (ukOffsetMinutes anchor)).natAbs >
         7 * 24 * 3600 →
       (optTruthy (extract_incident_datetime transcript anchor).value = true →
          ∃ f2 e2, sanity_fix_incident_time form transcript anchor ev = .ok (f2, e2) ∧
            f2.date_time_of_incident = (extract_incident_datetime transcript anchor).value ∧
            f2.immediate_actions_taken =
              (if (extract_incident_datetime transcript anchor).confidence == "low"
               then some (appendPiece form.immediate_actions_taken confirmHint)
               else form.immediate_actions_taken)) ∧
       (optTruthy (extract_incident_datetime transcript anchor).value = false →
          sanity_fix_incident_time form transcript anchor ev =
            .ok ({ form with date_time_of_incident := none }, ev))) := by
  refine ⟨?_, ?_, ?_⟩
  · intro hx
    simp [sanity_fix_incident_time, hparse, hx]
  · intro hx hn
    simp [sanity_fix_incident_time, hparse, hx, hn]
  · intro off hx ho hd
    unfold sanity_fix_incident_time
    rw [hparse]
    simp only [hx, Bool.false_eq_true, if_false, ho, hd, if_true]
    constructor
    · intro hv
      simp only [hv, if_true]
      refine ⟨_, _, rfl, ?_, ?_⟩
      · cases hc : (extract_incident_datetime transcript anchor).confidence == "low" <;>
          simp [hc]
      · cases hc : (extract_incident_datetime transcript anchor).confidence == "low" <;>
          simp [hc]
    · intro hv
      simp [hv]

/-- The concrete forms and anchor used by the C3 witness. -/
def c3Anchor : DT := ⟨2024, 6, 1, 12, 0, 0⟩

def c3FormNaive : Form :=
  { default_form c3Anchor with date_time_of_incident := some "2020-01-01T10:00:00" }

def c3FormAware : Form :=
  { default_form c3Anchor with date_time_of_incident := some "2020-01-01T10:00:00+00:00" }

/-- Witness for C3 at concrete inputs: an explicit date token preserves the
value; a naive parseable value with no date token raises `TypeError`; a
far-off aware value is nulled when re-inference finds nothing and replaced
(with the hint appended) when re-inference finds a low-confidence relative
match. -/
theorem C3_sanity_fix_behaviour_witness :
    (parse_iso c3FormAware.date_time_of_incident =
       some ⟨⟨2020, 1, 1, 10, 0, 0⟩, some 0⟩) ∧
    (has_explicit_date "seen on 15/03/2024" = true) ∧
    (sanity_fix_incident_time c3FormAware "seen on 15/03/2024" c3Anchor [] =
       .ok (c3FormAware, [])) ∧
    (parse_iso c3FormNaive.date_time_of_incident =
       some ⟨⟨2020, 1, 1, 10, 0, 0⟩, none⟩) ∧
    (has_explicit_date "he fell" = false) ∧
    (sanity_fix_incident_time c3FormNaive "he fell" c3Anchor [] = .error .typeError) ∧
    ((awareToUtcSec ⟨2020, 1, 1, 10, 0, 0⟩ 0 -
        awareToUtcSec c3Anchor (ukOffsetMinutes c3Anchor)).natAbs > 7 * 24 * 3600) ∧
    (optTruthy (extract_incident_datetime "he fell" c3Anchor).value = false) ∧
    (sanity_fix_incident_time c3FormAware "he fell" c3Anchor [] =
       .ok ({ c3FormAware with date_time_of_incident := none }, [])) ∧
    (optTruthy (extract_incident_datetime "he fell yesterday" c3Anchor).value = true) ∧
    (∃ f2 e2, sanity_fix_incident_time c3FormAware "he fell yesterday" c3Anchor [] =
        .ok (f2, e2) ∧
      f2.date_time_of_incident =
        (extract_incident_datetime "he fell yesterday" c3Anchor).value ∧
      f2.immediate_actions_taken = some confirmHint) := by
  refine ⟨rfl, rfl, ?_, rfl, rfl, ?_, by decide, rfl, ?_, rfl, ?_⟩
  · exact (C3_sanity_fix_behaviour c3FormAware "seen on 15/03/2024" c3Anchor []
      ⟨⟨2020, 1, 1, 10, 0, 0⟩, some 0⟩ rfl).1 rfl
  · exact (C3_sanity_fix_behaviour c3FormNaive "he fell" c3Anchor []
      ⟨⟨2020, 1, 1, 10, 0, 0⟩, none⟩ rfl).2.1 rfl rfl
  · exact ((C3_sanity_fix_behaviour c3FormAware "he fell" c3Anchor []
      ⟨⟨2020, 1, 1, 10, 0, 0⟩, some 0⟩ rfl).2.2 0 rfl rfl (by decide)).2 rfl
  · obtain ⟨f2, e2, heq, hdt, hact⟩ := ((C3_sanity_fix_behaviour c3FormAware
      "he fell yesterday" c3Anchor [] ⟨⟨2020, 1, 1, 10, 0, 0⟩, some 0⟩ rfl).2.2 0 rfl rfl
      (by decide)).1 rfl
    refine ⟨f2, e2, heq, hdt, ?_⟩
    rw [hact]
    rfl

/-- C7: with no model credential configured (`OPENAI_API_KEY` unset), the
`extraction_source` of every successful analysis is "rules", and the rule
extractor is deterministic under a fixed configuration: two calls on the
same input text yield identical facts and identical evidence. -/
theorem C7_no_credential_source_rules (oracle : String → String → FactsBag × List Ev)
    (env : RegexEnv) (patterns : List (String × List String)) (locations : List String)
    (arules : List ARule) (trig : Triggers) (notifs : Notifs) (anchor : DT)
    (transcript : String) (r : AnalyzeResult)
    (h : analyze_transcript oracle env patterns locations arules trig notifs
           false anchor transcript = .ok r) :
    r.extraction_source = "rules" ∧
    (∀ r1 r2, extract_with_rules env patterns locations arules transcript = r1 →
       extract_with_rules env patterns locations arules transcript = r2 → r1 = r2) := by
  refine ⟨?_, fun r1 r2 h1 h2 => h1 ▸ h2 ▸ rfl⟩
  unfold analyze_transcript at h
  simp only [Bool.false_eq_true, if_false] at h
  cases hscan : extract_with_rules env patterns locations arules transcript with
  | error e =>
    rw [hscan] at h
    simp [bind, Except.bind, FactsBag.nonempty] at h
  | ok rr =>
    rw [hscan] at h
    simp only [bind, Except.bind, pure, Except.pure, FactsBag.nonempty,
               Option.isSome_none, Bool.or_self, Bool.not_false, if_true] at h
    exact analyze_finish_source env trig notifs anchor transcript "rules"
      rr.facts rr.evidence r h

/-- Witness for C7: a concrete no-credential analysis returns source
"rules". -/
theorem C7_no_credential_source_rules_witness :
    ∃ r, analyze_transcript (fun _ _ => ({}, [])) litEnv [("fall", ["fell"])] ["kitchen"]
           [] ⟨[], []⟩ ⟨none, []⟩ false ⟨2024, 6, 1, 12, 0, 0⟩ "x" = .ok r ∧
         r.extraction_source = "rules" := by
  have hok : isOkE (analyze_transcript (fun _ _ => ({}, [])) litEnv [("fall", ["fell"])]
      ["kitchen"] [] ⟨[], []⟩ ⟨none, []⟩ false ⟨2024, 6, 1, 12, 0, 0⟩ "x") = true := rfl
  cases hh : analyze_transcript (fun _ _ => ({}, [])) litEnv [("fall", ["fell"])] ["kitchen"]
      [] ⟨[], []⟩ ⟨none, []⟩ false ⟨2024, 6, 1, 12, 0, 0⟩ "x" with
  | ok r =>
    exact ⟨r, rfl, (C7_no_credential_source_rules (fun _ _ => ({}, [])) litEnv
      [("fall", ["fell"])] ["kitchen"] [] ⟨[], []⟩ ⟨none, []⟩ ⟨2024, 6, 1, 12, 0, 0⟩ "x" r hh).1⟩
  | error e =>
    rw [hh] at hok
    exact absurd hok (by simp [isOkE])

/-- C8: the assessment matcher iterates rules in file order; a rule whose
incident-type allow-list excludes the current type is skipped; a surviving
rule's patterns are tested in order on the lowercased text and the first
match returns immediately with the matched substring as the quote, so the
first rule to match wins regardless of later rules; `(none, none)` is
returned when no rule matches; and reordering two rules that both match the
same text changes the result. -/
theorem C8_matcher_first_rule_wins (env : RegexEnv) :
    (∀ (r : ARule) (rs : List ARule) (ty : Option String) (text : String),
       ruleApplies r ty = false →
       which_risk_assessment env (r :: rs) text ty = which_risk_assessment env rs text ty) ∧
    (∀ (r : ARule) (rs : List ARule) (ty : Option String) (text : String) (s e : Nat),
       ruleApplies r ty = true →
       firstPatMatch env r.patterns (lowerStr text) = some (s, e) →
       which_risk_assessment env (r :: rs) text ty =
         (some r.name, some (sliceChars text.data s (e - s)))) ∧
    (∀ (rules : List ARule) (ty : Option String) (text : String),
       (∀ r ∈ rules, ruleApplies r ty = true →
          firstPatMatch env r.patterns (lowerStr text) = none) →
       which_risk_assessment env rules text ty = (none, none)) ∧
    (which_risk_assessment litEnv [⟨"A", none, ["fell"]⟩, ⟨"B", none, ["fell"]⟩] "He fell" none ≠
       which_risk_assessment litEnv [⟨"B", none, ["fell"]⟩, ⟨"A", none, ["fell"]⟩] "He fell" none) := by
  refine ⟨?_, ?_, ?_, by decide⟩
  · intro r rs ty text hskip
    simp [which_risk_assessment, whichGo, hskip]
  · intro r rs ty text s e happ hmatch
    simp [which_risk_assessment, whichGo, happ, hmatch]
  · intro rules ty text hnone
    induction rules with
    | nil => rfl
    | cons r rs ih =>
      have hr := hnone r (List.mem_cons_self r rs)
      have hrest := ih (fun q hq => hnone q (List.mem_cons_of_mem r hq))
      simp only [which_risk_assessment, whichGo] at hrest ⊢
      cases happ : ruleApplies r ty with
      | false => simpa [happ] using hrest
      | true => simp [happ, hr happ, hrest]

/-- Witness for C8: the first applicable matching rule wins at a concrete
configuration. -/
theorem C8_matcher_first_rule_wins_witness :
    (ruleApplies ⟨"A", none, ["fell"]⟩ none = true) ∧
    (firstPatMatch litEnv ["fell"] (lowerStr "He fell") = some (3, 7)) ∧
    (which_risk_assessment litEnv [⟨"A", none, ["fell"]⟩, ⟨"B", none, ["x"]⟩] "He fell" none =
       (some "A", some "fell")) ∧
    (which_risk_assessment litEnv [⟨"A", some ["burn"], ["fell"]⟩] "He fell" (some "fall") =
       (none, none)) := by
  refine ⟨rfl, rfl, ?_, ?_⟩
  · exact (C8_matcher_first_rule_wins litEnv).2.1 ⟨"A", none, ["fell"]⟩ [⟨"B", none, ["x"]⟩]
      none "He fell" 3 7 rfl rfl
  · exact (C8_matcher_first_rule_wins litEnv).2.2.1 [⟨"A", some ["burn"], ["fell"]⟩]
      (some "fall") "He fell" (by decide)

/-- The claim-side reading of `\b kw \b` matching somewhere in `s`: `kw`
occurs as a contiguous substring with no word character adjacent on either
side. -/
def occursAsWord (kw s : List Char) : Prop :=
  ∃ pre post, s = pre ++ kw ++ post ∧
    (∀ c, pre.getLast? = some c → isWordChar c = false) ∧
    (∀ c, post.head? = some c → isWordChar c = false)

/-- Boundary on the left of a candidate match: at the search start the
`prevW` flag plays the role of the character preceding `pre`. -/
def preOk (prevW : Bool) (pre : List Char) : Prop :=
  match pre.getLast? with
  | none => prevW = false
  | some c => isWordChar c = false

theorem endB_iff (post : List Char) :
    endB post = true ↔ ∀ c, post.head? = some c → isWordChar c = false := by
  cases post <;> simp [endB]

theorem kwHitHere_iff (kws : List (List Char)) (prevW : Bool) (s : List Char) :
    kwHitHere kws prevW s = true ↔
      prevW = false ∧ ∃ kw ∈ kws, ∃ post, s = kw ++ post ∧ endB post = true := by
  unfold kwHitHere
  simp only [Bool.and_eq_true, Bool.not_eq_true', List.any_eq_true]
  constructor
  · rintro ⟨hp, kw, hmem, hpfx, hend⟩
    obtain ⟨t, ht⟩ := List.isPrefixOf_iff_prefix.mp hpfx
    refine ⟨hp, kw, hmem, t, ht.symm, ?_⟩
    rwa [ht.symm, List.drop_left] at hend
  · rintro ⟨hp, kw, hmem, post, heq, hend⟩
    subst heq
    refine ⟨hp, kw, hmem, List.isPrefixOf_iff_prefix.mpr (List.prefix_append kw post), ?_⟩
    rwa [List.drop_left]

theorem kwSearchAux_iff (kws : List (List Char)) (hne : ∀ kw ∈ kws, kw ≠ [])
    (s : List Char) : ∀ prevW,
    kwSearchAux kws prevW s = true ↔
      ∃ kw ∈ kws, ∃ pre post,
        s = pre ++ kw ++ post ∧ preOk prevW pre ∧ endB post = true := by
  induction s with
  | nil =>
    intro prevW
    rw [kwSearchAux, kwHitHere_iff]
    constructor
    · rintro ⟨-, kw, hmem, post, heq, -⟩
      exact absurd (List.append_eq_nil.mp heq.symm).1 (hne kw hmem)
    · rintro ⟨kw, hmem, pre, post, heq, -, -⟩
      have h0 := (List.append_eq_nil.mp heq.symm).1
      exact absurd (List.append_eq_nil.mp h0).2 (hne kw hmem)
  | cons c cs ih =>
    intro prevW
    rw [kwSearchAux, Bool.or_eq_true, kwHitHere_iff, ih (isWordChar c)]
    constructor
    · rintro (⟨hp, kw, hmem, post, heq, hend⟩ | ⟨kw, hmem, pre, post, heq, hpre, hend⟩)
      · exact ⟨kw, hmem, [], post, by simpa using heq, by simp [preOk, hp], hend⟩
      · refine ⟨kw, hmem, c :: pre, post, by simp [heq], ?_, hend⟩
        cases pre with
        | nil => simpa [preOk] using hpre
        | cons p ps =>
          rcases hlast : (p :: ps).getLast? with _ | x
          · exact absurd hlast (by simp)
          · simp only [preOk, hlast] at hpre
            simpa [preOk, List.getLast?_cons_cons, hlast] using hpre
    · rintro ⟨kw, hmem, pre, post, heq, hpre, hend⟩
      cases pre with
      | nil =>
        left
        have hp : prevW = false := by simpa [preOk] using hpre
        exact ⟨hp, kw, hmem, post, by simpa using heq, hend⟩
      | cons p ps =>
        right
        have hc : p = c ∧ cs = ps ++ (kw ++ post) := by
          have : c :: cs = p :: (ps ++ (kw ++ post)) := by simpa using heq
          exact ⟨(List.cons.injEq _ _ _ _ ▸ this).1.symm, (List.cons.injEq _ _ _ _ ▸ this).2⟩
        refine ⟨kw, hmem, ps, post, by simpa using hc.2, ?_, hend⟩
        cases ps with
        | nil =>
          have : isWordChar p = false := by simpa [preOk] using hpre
          simp [preOk, hc.1 ▸ this]
        | cons q qs =>
          rcases hlast : (q :: qs).getLast? with _ | x
          · exact absurd hlast (by simp)
          · simp only [preOk, List.getLast?_cons_cons, hlast] at hpre
            simpa [preOk, hlast] using hpre

/-- Here `re.search(r"\b(kw1|...|kwn)\b", s)` succeeds exactly when some keyword
occurs as a word in `s`. -/
theorem kwSearch_iff (kws : List (List Char)) (hne : ∀ kw ∈ kws, kw ≠ [])
    (s : List Char) :
    kwSearch kws s = true ↔ ∃ kw ∈ kws, occursAsWord kw s := by
  rw [kwSearch, kwSearchAux_iff kws hne s false]
  unfold occursAsWord
  constructor
  · rintro ⟨kw, hmem, pre, post, heq, hpre, hend⟩
    refine ⟨kw, hmem, pre, post, heq, ?_, (endB_iff post).mp hend⟩
    intro x hx
    rcases hlast : pre.getLast? with _ | y
    · rw [hlast] at hx; cases hx
    · rw [hlast] at hx
      cases hx
      simpa [preOk, hlast] using hpre
  · rintro ⟨kw, hmem, pre, post, heq, hpre, hend⟩
    refine ⟨kw, hmem, pre, post, heq, ?_, (endB_iff post).mpr hend⟩
    unfold preOk
    rcases hlast : pre.getLast? with _ | y
    · rfl
    · exact hpre y hlast

/-- The name step touches neither boolean flag. -/
theorem rules_name_stage_wfa (text : String) (st : FactsBag × List Ev) :
    (rules_name_stage text st).1.was_first_aid_administered =
      st.1.was_first_aid_administered := by
  unfold rules_name_stage; split <;> rfl

theorem rules_name_stage_wesc (text : String) (st : FactsBag × List Ev) :
    (rules_name_stage text st).1.were_emergency_services_contacted =
      st.1.were_emergency_services_contacted := by
  unfold rules_name_stage; split <;> rfl

theorem rules_incident_stage_wfa (text : String) (o : Option (String × Nat × Nat))
    (st : FactsBag × List Ev) :
    (rules_incident_stage text o st).1.was_first_aid_administered =
      st.1.was_first_aid_administered := by
  unfold rules_incident_stage; split <;> rfl

theorem rules_incident_stage_wesc (text : String) (o : Option (String × Nat × Nat))
    (st : FactsBag × List Ev) :
    (rules_incident_stage text o st).1.were_emergency_services_contacted =
      st.1.were_emergency_services_contacted := by
  unfold rules_incident_stage; split <;> rfl

theorem rules_location_stage_wfa (locations : List String) (text low : String)
    (st : FactsBag × List Ev) :
    (rules_location_stage locations text low st).1.was_first_aid_administered =
      st.1.was_first_aid_administered := by
  unfold rules_location_stage; split <;> rfl

theorem rules_location_stage_wesc (locations : List String) (text low : String)
    (st : FactsBag × List Ev) :
    (rules_location_stage locations text low st).1.were_emergency_services_contacted =
      st.1.were_emergency_services_contacted := by
  unfold rules_location_stage; split <;> rfl

/-- The injury-keyword branch can only assign `False` again. -/
theorem rules_first_aid_stage_wfa (low : String) (st : FactsBag × List Ev) :
    (rules_first_aid_stage low st).1.was_first_aid_administered =
      (if kwSearch firstAidKws low.data then some false
       else st.1.was_first_aid_administered) := by
  unfold rules_first_aid_stage; split <;> simp_all

theorem rules_first_aid_stage_wesc (low : String) (st : FactsBag × List Ev) :
    (rules_first_aid_stage low st).1.were_emergency_services_contacted =
      st.1.were_emergency_services_contacted := by
  unfold rules_first_aid_stage; split <;> rfl

theorem rules_emergency_stage_wfa (low : String) (st : FactsBag × List Ev) :
    (rules_emergency_stage low st).1.was_first_aid_administered =
      st.1.was_first_aid_administered := by
  unfold rules_emergency_stage; split <;> rfl

/-- The emergency flag flips to `True` exactly on a keyword match. -/
theorem rules_emergency_stage_wesc (low : String) (st : FactsBag × List Ev) :
    (rules_emergency_stage low st).1.were_emergency_services_contacted =
      (if kwSearch emergencyKws low.data then some true
       else st.1.were_emergency_services_contacted) := by
  unfold rules_emergency_stage; split <;> simp_all

theorem rules_assessment_stage_wfa (env : RegexEnv) (arules : List ARule)
    (text low : String) (st : FactsBag × List Ev) :
    (rules_assessment_stage env arules text low st).1.was_first_aid_administered =
      st.1.was_first_aid_administered := by
  unfold rules_assessment_stage
  rcases which_risk_assessment env arules text st.1.incident_type.join with ⟨_ | a, q⟩
  · rfl
  · cases q <;> rfl

theorem rules_assessment_stage_wesc (env : RegexEnv) (arules : List ARule)
    (text low : String) (st : FactsBag × List Ev) :
    (rules_assessment_stage env arules text low st).1.were_emergency_services_contacted =
      st.1.were_emergency_services_contacted := by
  unfold rules_assessment_stage
  rcases which_risk_assessment env arules text st.1.incident_type.join with ⟨_ | a, q⟩
  · rfl
  · cases q <;> rfl

theorem rules_falls_stage_wfa (st : FactsBag × List Ev) :
    (rules_falls_stage st).1.was_first_aid_administered =
      st.1.was_first_aid_administered := by
  unfold rules_falls_stage; split <;> rfl

theorem rules_falls_stage_wesc (st : FactsBag × List Ev) :
    (rules_falls_stage st).1.were_emergency_services_contacted =
      st.1.were_emergency_services_contacted := by
  unfold rules_falls_stage; split <;> rfl

/-- C9: on every successful extraction, the rule extractor returns
`was_first_aid_administered = false` (the injury-keyword branch assigns
`False` again, preserving the default in every branch), and
`were_emergency_services_contacted = true` exactly when one of the keywords
999 / ambulance / emergency services / paramedic occurs as a word in the
lowercased text. -/
theorem C9_first_aid_and_emergency_flags (env : RegexEnv)
    (patterns : List (String × List String)) (locations : List String)
    (arules : List ARule) (text : String) (r : RulesOut)
    (h : extract_with_rules env patterns locations arules text = .ok r) :
    r.facts.was_first_aid_administered = some false ∧
    (r.facts.were_emergency_services_contacted = some true ↔
       ∃ kw ∈ emergencyKws, occursAsWord kw (lowerStr text).data) := by
  have hne : ∀ kw ∈ emergencyKws, kw ≠ [] := by decide
  rw [← kwSearch_iff emergencyKws hne]
  unfold extract_with_rules at h
  cases hscan : incidentScan env text patterns with
  | error e =>
    rw [hscan] at h
    simp [bind, Except.bind] at h
  | ok o =>
    rw [hscan] at h
    simp only [bind, Except.bind, pure, Except.pure, Except.ok.injEq] at h
    subst h
    constructor
    · show (rules_falls_stage _).1.was_first_aid_administered = some false
      rw [rules_falls_stage_wfa, rules_assessment_stage_wfa, rules_emergency_stage_wfa,
          rules_first_aid_stage_wfa, rules_location_stage_wfa, rules_incident_stage_wfa,
          rules_name_stage_wfa]
      split <;> rfl
    · show (rules_falls_stage _).1.were_emergency_services_contacted = some true ↔ _
      rw [rules_falls_stage_wesc, rules_assessment_stage_wesc, rules_emergency_stage_wesc,
          rules_first_aid_stage_wesc, rules_location_stage_wesc, rules_incident_stage_wesc,
          rules_name_stage_wesc]
      cases hk : kwSearch emergencyKws (lowerStr text).data <;> simp [hk, rules_facts0]

/-- Witness for C9 at a concrete input containing "999" as a word. -/
theorem C9_first_aid_and_emergency_flags_witness :
    ∃ r, extract_with_rules litEnv [] [] [] "Called 999 now" = .ok r ∧
      r.facts.was_first_aid_administered = some false ∧
      (r.facts.were_emergency_services_contacted = some true ↔
         ∃ kw ∈ emergencyKws, occursAsWord kw (lowerStr "Called 999 now").data) := by
  have hok : isOkE (extract_with_rules litEnv [] [] [] "Called 999 now") = true := rfl
  cases hh : extract_with_rules litEnv [] [] [] "Called 999 now" with
  | ok r =>
    have h2 := C9_first_aid_and_emergency_flags litEnv [] [] [] "Called 999 now" r hh
    exact ⟨r, rfl, h2.1, h2.2⟩
  | error e =>
    rw [hh] at hok
    exact absurd hok (by simp [isOkE])
